import Mathlib

/-!
Verification of the ActivityPub REST-handler core of the `orb` repository
(`pkg/activitypub/resthandler`): the paginated collection handlers
(outbox, inbox, shares, likes) and the accept-list read/write handlers.

The accept-list handler is embedded directly from
`pkg/activitypub/resthandler/acceptlisthandler.go`.  The activity handler
itself (paging engine, collection resolvers, document builder) is not among
the source files; only its test file
`pkg/activitypub/resthandler/activityhandler_test.go` is.  Those parts are
modelled from the specification, and every modelled definition is checked
against the concrete JSON fixtures asserted by the test file
(`outboxJSON`, `outboxFirstPageJSON`, `outboxPage3JSON`,
`outboxPageTooLargeJSON`, `outboxLastPageJSON`, `sharesFirstPageJSON`,
`sharesPage1JSON`).
-/

namespace Orb

/-! ### Paging engine (modelled from the spec, pinned by the test fixtures) -/

/-- Modelled from the spec: the maximum valid page index for a collection of
`total` items with page size `pageSize`, namely `ceil(total / pageSize) - 1`
(missing source `activityhandler.go`; the test fixtures pin `total = 19`,
`pageSize = 4` to max page 4). -/
def maxPageNum (total pageSize : Nat) : Nat :=
  (total + pageSize - 1) / pageSize - 1

/-- Modelled from the spec: the half-open index window `[lo, hi)` of logical
item indices (0 = oldest) covered by page `n`.  The newest page is page
`maxPageNum`, page 0 is the oldest page; a requested page number beyond the
maximum yields an empty window (missing source `activityhandler.go`; the
windows are pinned by the test fixtures `outboxPage3JSON`,
`outboxLastPageJSON`, `outboxPageTooLargeJSON`, `sharesPage1JSON`). -/
def pageWindow (total pageSize n : Nat) : Nat × Nat :=
  let m := maxPageNum total pageSize
  if m < n then (total, total)
  else (total - (m + 1 - n) * pageSize, total - (m - n) * pageSize)

/-- Modelled from the spec: the items of page `n`, listed newest-first, out of
the reference list `refs` (oldest first, as stored). -/
def windowItems (refs : List String) (pageSize n : Nat) : List String :=
  let w := pageWindow refs.length pageSize n
  ((refs.drop w.1).take (w.2 - w.1)).reverse

/-- Modelled from the spec: the IRI of a page of the collection whose own IRI
is `iri`; with no page number it is `iri?page=true` (the `first` link), with a
page number `n` it is `iri?page=true&page-num=n`. -/
def pageIRI (iri : String) (pageNum : Option Nat) : String :=
  match pageNum with
  | none => iri ++ "?page=true"
  | some n => iri ++ "?page=true&page-num=" ++ toString n

/-- An `OrderedCollectionPage` document, with items rendered into type `A`.
`orderedItems` is `none` when the window is empty (the field is omitted, not
emitted as an empty list). -/
structure OrderedCollectionPage (A : Type) where
  id : String
  prev : Option String
  next : Option String
  orderedItems : Option (List A)
  totalItems : Nat
  deriving DecidableEq, Repr

/-- Modelled from the spec: build the page document for a paged request.
`pageNum = none` (no `page-num` supplied) resolves to the most-recent page
`maxPageNum`.  The document's `id` echoes the requested page number verbatim
even when it is out of range; `prev` points one page newer when such a page
exists; `next` points one page older, clipped to the maximum valid page
(missing source `activityhandler.go`; pinned by the test fixtures). `render`
turns a member IRI into an item (hydration for outbox/inbox, a bare reference
for shares/likes). -/
def buildPageDocWith {A : Type} (render : String → A) (iri : String)
    (refs : List String) (pageSize : Nat) (pageNum : Option Nat) :
    OrderedCollectionPage A :=
  let total := refs.length
  let m := maxPageNum total pageSize
  let n := pageNum.getD m
  let items := windowItems refs pageSize n
  { id := pageIRI iri (some n)
    prev := if n + 1 ≤ m then some (pageIRI iri (some (n + 1))) else none
    next := if 1 ≤ n then some (pageIRI iri (some (min (n - 1) m))) else none
    orderedItems := if items.isEmpty then none else some (items.map render)
    totalItems := total }

/-- The page document with the member IRIs themselves as items. -/
def buildPageDoc (iri : String) (refs : List String) (pageSize : Nat)
    (pageNum : Option Nat) : OrderedCollectionPage String :=
  buildPageDocWith id iri refs pageSize pageNum

/-- A top-level (unpaged) `OrderedCollection` document. -/
structure OrderedCollection where
  id : String
  totalItems : Nat
  first : Option String
  last : Option String
  deriving DecidableEq, Repr

/-- Modelled from the spec: the top-level collection envelope; `first`/`last`
are omitted when the collection is empty (missing source
`activityhandler.go`; pinned by the fixtures `outboxJSON`, `sharesJSON`). -/
def buildCollectionDoc (iri : String) (total : Nat) : OrderedCollection :=
  { id := iri
    totalItems := total
    first := if total = 0 then none else some (pageIRI iri none)
    last := if total = 0 then none else some (pageIRI iri (some 0)) }

/-- Modelled from the spec: whether the `page` query parameter requests
paging; any value not recognized as true means "unpaged". -/
def pageRequested (page : String) : Bool :=
  page = "true"

/-- The numeric value of a decimal digit character, `none` otherwise. -/
def charDigit (c : Char) : Option Nat :=
  if c.isDigit then some (c.toNat - 48) else none

/-- Modelled from the spec: parse the `page-num` query parameter as a
non-negative decimal integer; any non-numeric value (the empty string
included) is treated as absent rather than an error. -/
def parsePageNum (s : String) : Option Nat :=
  match s.toList with
  | [] => none
  | cs =>
    cs.foldl
      (fun acc c =>
        match acc, charDigit c with
        | some v, some d => some (v * 10 + d)
        | _, _ => none)
      (some 0)

/-- The body of a successful collection response: either the unpaged
envelope or a page document. -/
inductive Doc (A : Type) where
  | collection (c : OrderedCollection)
  | page (p : OrderedCollectionPage A)
  deriving DecidableEq, Repr

/-- Modelled from the spec: the happy-path request cycle of the generic
activity handler, given the collection IRI, the stored references and the
raw `page` / `page-num` query parameters.  Malformed parameters fall back
silently (no page requested / most-recent page); the status is always 200. -/
def handleActivities (iri : String) (refs : List String) (pageSize : Nat)
    (page pageNumStr : String) : Nat × Doc String :=
  if pageRequested page then
    (200, Doc.page (buildPageDoc iri refs pageSize (parsePageNum pageNumStr)))
  else
    (200, Doc.collection (buildCollectionDoc iri refs.length))

/-! ### Collection resolvers (modelled from the spec, pinned by
`TestNewShares` / `TestNewLikes` / `TestNewOutbox` / `TestNewInbox`) -/

/-- Modelled from the spec: `getObjectIRI` for the per-object kinds
(shares/likes): the object IRI is derived from the `id` path parameter; an
absent (empty) parameter fails with the exact message asserted by the tests
(missing source `activityhandler.go`). -/
def getObjectIRIByID (baseIRI idParam : String) : Except String String :=
  if idParam = "" then Except.error "id not specified in URL"
  else Except.ok (baseIRI ++ "/" ++ idParam)

/-- Modelled from the spec: `getObjectIRI` for outbox/inbox, derived from
static service configuration; it cannot fail (missing source
`activityhandler.go`). -/
def getObjectIRIStatic (serviceIRI : String) : Except String String :=
  Except.ok serviceIRI

/-- Modelled from the spec: `getID` for the per-object kinds appends the
collection's path segment (`/shares` or `/likes`) to the object IRI. -/
def getIDWithSegment (segment objectIRI : String) : String :=
  objectIRI ++ "/" ++ segment

/-! ### Item rendering per kind (spec §4.3, pinned by `sharesFirstPageJSON`
and `outboxFirstPageJSON`) -/

/-- A shares/likes item: the activity rendered as a reference object whose
`object` field is exactly the member-IRI string. -/
structure RefObject where
  id : String
  object : String
  deriving DecidableEq, Repr

/-- Modelled from the spec: render a shares/likes member IRI as a bare
reference object — no hydration of the referenced activity. -/
def renderReference (memberIRI : String) : RefObject :=
  { id := memberIRI, object := memberIRI }

/-- Modelled from the spec: an outbox/inbox page, whose items are the
fully hydrated activity bodies fetched by member IRI through `hydrate`. -/
def buildOutboxPage {A : Type} (hydrate : String → A) (iri : String)
    (refs : List String) (pageSize : Nat) (pageNum : Option Nat) :
    OrderedCollectionPage A :=
  buildPageDocWith hydrate iri refs pageSize pageNum

/-- Modelled from the spec: a shares/likes page, whose items are bare
reference objects built from the member IRIs alone. -/
def buildSharesPage (iri : String) (refs : List String) (pageSize : Nat)
    (pageNum : Option Nat) : OrderedCollectionPage RefObject :=
  buildPageDocWith renderReference iri refs pageSize pageNum

/-! ### Error paths of the handlers -/

/-- Modelled from the spec: the generic internal-server-error body (the
constant `internalServerErrorResponse` of the handler package, whose file is
not among the sources). -/
def internalServerErrorResponse : String :=
  "Internal Server Error.\n"

/-- Modelled from the spec: the state machine of a paged activity request
with fallible collaborators: `storeResult` is the reference-store query
outcome and `marshal` the injectable serializer.  A store failure or a
marshaling failure each yield a single 500 response whose body is exactly
the generic internal-server-error text; otherwise the marshaled page is
written with status 200 (missing source `activityhandler.go`; statuses
pinned by the `Store error` / `Marshal error` test cases). -/
def handleActivitiesPageRun (iri : String)
    (storeResult : Except String (List String))
    (marshal : OrderedCollectionPage String → Except String String)
    (pageSize : Nat) (pageNum : Option Nat) : Nat × String :=
  match storeResult with
  | Except.error _ => (500, internalServerErrorResponse)
  | Except.ok refs =>
    match marshal (buildPageDoc iri refs pageSize pageNum) with
    | Except.error _ => (500, internalServerErrorResponse)
    | Except.ok body => (200, body)

/-! ### Accept list (embedded from
`pkg/activitypub/resthandler/acceptlisthandler.go`) -/

/-- One entry of the accept-list write request body (`acceptListRequest`):
`{type, add: [uri...], remove: [uri...]}`. -/
structure AcceptListRequest where
  type : String
  add : List String
  remove : List String
  deriving DecidableEq, Repr

/-- A validated accept-list request (`request`), over an abstract URI type
`U` (the Go code uses `*url.URL`). -/
structure Request (U : Type) where
  acceptType : String
  additions : List U
  deletions : List U
  deriving DecidableEq, Repr

/-- `parseURIs`: parse every raw string through the URI parser `parse`
(abstracting Go's `url.Parse`); the first failure aborts with an error. -/
def parseURIs {U : Type} (parse : String → Option U) :
    List String → Except String (List U)
  | [] => Except.ok []
  | rawURI :: rest =>
    match parse rawURI with
    | none => Except.error ("invalid URI in accept list: " ++ rawURI)
    | some uri =>
      match parseURIs parse rest with
      | Except.error e => Except.error e
      | Except.ok uris => Except.ok (uri :: uris)

/-- `newRequest`: validate one entry — `type` is required, and both the
`add` and `remove` lists must parse as URIs. -/
def newRequest {U : Type} (parse : String → Option U)
    (r : AcceptListRequest) : Except String (Request U) :=
  if r.type = "" then Except.error "accept list type is required"
  else
    match parseURIs parse r.add with
    | Except.error e => Except.error ("parse URIs for additions: " ++ e)
    | Except.ok adds =>
      match parseURIs parse r.remove with
      | Except.error e => Except.error ("parse URIs for deletion: " ++ e)
      | Except.ok dels =>
        Except.ok { acceptType := r.type, additions := adds, deletions := dels }

/-- The entry loop of `unmarshalAndValidateRequest`: validate each entry in
order; the first failing entry aborts the whole batch with the error
`"invalid accept list request"`. -/
def validateEntries {U : Type} (parse : String → Option U) :
    List AcceptListRequest → Except String (List (Request U))
  | [] => Except.ok []
  | r :: rest =>
    match newRequest parse r with
    | Except.error _ => Except.error "invalid accept list request"
    | Except.ok req =>
      match validateEntries parse rest with
      | Except.error e => Except.error e
      | Except.ok reqs => Except.ok (req :: reqs)

/-- `unmarshalAndValidateRequest`: `body = none` models a JSON unmarshal
failure of the request bytes; otherwise the decoded entry list is
validated. -/
def unmarshalAndValidateRequest {U : Type} (parse : String → Option U)
    (body : Option (List AcceptListRequest)) :
    Except String (List (Request U)) :=
  match body with
  | none => Except.error "invalid accept list request"
  | some rs => validateEntries parse rs

/-- The `mgr.Update` loop of `handlePost`: `outcome k` is the result of the
`k`-th Update call (`none` = success).  Returns the calls made (in order,
the failing call included), the successfully applied requests, and the
error of the failing call, if any.  The loop stops at the first failure. -/
def runUpdates {U : Type} (outcome : Nat → Option String) :
    Nat → List (Request U) → List (Request U) × List (Request U) × Option String
  | _, [] => ([], [], none)
  | k, r :: rs =>
    match outcome k with
    | some e => ([r], [], some e)
    | none =>
      let res := runUpdates outcome (k + 1) rs
      (r :: res.1, r :: res.2.1, res.2.2)

/-- The observable outcome of `handlePost`: HTTP status, response body,
the Update calls made (in order) and the requests successfully applied. -/
structure PostResult (U : Type) where
  status : Nat
  body : String
  calls : List (Request U)
  applied : List (Request U)
  deriving DecidableEq, Repr

/-- `AcceptListWriter.handlePost`: a body-read failure yields 500 with the
generic body before anything is interpreted; a validation failure yields
400 with the validation message; otherwise `mgr.Update` is called once per
entry in array order, stopping (with 500) at the first store failure. -/
def handlePost {U : Type} (parse : String → Option U)
    (readResult : Except String (Option (List AcceptListRequest)))
    (outcome : Nat → Option String) : PostResult U :=
  match readResult with
  | Except.error _ =>
    { status := 500, body := internalServerErrorResponse, calls := [], applied := [] }
  | Except.ok body =>
    match unmarshalAndValidateRequest parse body with
    | Except.error msg => { status := 400, body := msg, calls := [], applied := [] }
    | Except.ok reqs =>
      let r := runUpdates outcome 0 reqs
      match r.2.2 with
      | some _ =>
        { status := 500, body := internalServerErrorResponse
          calls := r.1, applied := r.2.1 }
      | none => { status := 200, body := "", calls := r.1, applied := r.2.1 }

/-- An accept list as returned by the read handler (`acceptList`):
`{type, url: [...]}`. -/
structure AcceptList where
  type : String
  urls : List String
  deriving DecidableEq, Repr

/-- `AcceptListReader.handleGetAll`: a store `GetAll` failure or a
marshaling failure each yield a single 500 response whose body is exactly
the generic internal-server-error text; otherwise the marshaled lists are
written with status 200. -/
def handleGetAll (getAllResult : Except String (List AcceptList))
    (marshal : List AcceptList → Except String String) : Nat × String :=
  match getAllResult with
  | Except.error _ => (500, internalServerErrorResponse)
  | Except.ok lists =>
    match marshal lists with
    | Except.error _ => (500, internalServerErrorResponse)
    | Except.ok body => (200, body)

/-- `toAcceptList`: render one accept list (type plus URIs, here already
strings) into the response shape `{type, url: [...]}`. -/
def toAcceptList (acceptType : String) (uris : List String) : AcceptList :=
  { type := acceptType, urls := uris }

/-- `AcceptListReader.handleGetByType`: a store `Get` failure or a
marshaling failure each yield a single 500 response whose body is exactly
the generic internal-server-error text; otherwise the marshaled list is
written with status 200. -/
def handleGetByType (getResult : Except String (List String))
    (marshal : AcceptList → Except String String) (acceptType : String) :
    Nat × String :=
  match getResult with
  | Except.error _ => (500, internalServerErrorResponse)
  | Except.ok uris =>
    match marshal (toAcceptList acceptType uris) with
    | Except.error _ => (500, internalServerErrorResponse)
    | Except.ok body => (200, body)

/-- Modelled from the spec: the state machine of an *unpaged* activity
request with fallible collaborators: `storeResult` is the reference-store
query outcome and `marshal` the injectable serializer.  A store failure or
a marshaling failure each yield a single 500 response whose body is exactly
the generic internal-server-error text; otherwise the marshaled top-level
collection envelope is written with status 200 (missing source
`activityhandler.go`; statuses pinned by the `Store error` / `Marshal
error` cases of `TestActivities_Handler`). -/
def handleActivitiesUnpagedRun (iri : String)
    (storeResult : Except String (List String))
    (marshal : OrderedCollection → Except String String) : Nat × String :=
  match storeResult with
  | Except.error _ => (500, internalServerErrorResponse)
  | Except.ok refs =>
    match marshal (buildCollectionDoc iri refs.length) with
    | Except.error _ => (500, internalServerErrorResponse)
    | Except.ok body => (200, body)

/-! ### Concrete instances used by the witnesses (the scenario of the test
file: 19 activities `activity_0` .. `activity_18`, page size 4) -/

/-- The outbox collection IRI used by the test fixtures. -/
def outboxIRI : String := "https://example1.com/services/orb/outbox"

/-- The 19 stored member references of the test scenario, oldest first. -/
def outboxRefs19 : List String :=
  (List.range 19).map (fun i => "activity_" ++ toString i)

/-- The URI parser used by the accept-list witnesses: every string parses
except the literal `"bad uri"`. -/
def parseW : String → Option String :=
  fun u => if u = "bad uri" then none else some u

/-- An accept-list entry is invalid when its `type` is empty or some string
in its `add` or `remove` list fails to parse as a URI. -/
def invalidEntry {U : Type} (parse : String → Option U)
    (r : AcceptListRequest) : Prop :=
  r.type = "" ∨ (∃ u ∈ r.add, parse u = none) ∨ (∃ u ∈ r.remove, parse u = none)

/-! ### Helper lemmas -/

theorem parseURIs_not_ok {U : Type} (parse : String → Option U)
    (raw : List String) (h : ∃ u ∈ raw, parse u = none) :
    ∀ l, parseURIs parse raw ≠ Except.ok l := by
  induction raw with
  | nil => simp at h
  | cons a rest ih =>
    intro l hl
    rcases h with ⟨u, hu, hnone⟩
    rcases List.mem_cons.1 hu with h1 | h2
    · subst h1
      simp [parseURIs, hnone] at hl
    · cases ha : parse a with
      | none => simp [parseURIs, ha] at hl
      | some v =>
        cases hr : parseURIs parse rest with
        | error e => simp [parseURIs, ha, hr] at hl
        | ok uris => exact ih ⟨u, h2, hnone⟩ uris hr

theorem newRequest_not_ok {U : Type} (parse : String → Option U)
    (r : AcceptListRequest) (h : invalidEntry parse r) :
    ∀ q, newRequest parse r ≠ Except.ok q := by
  intro q hq
  rcases h with h | h | h
  · simp [newRequest, h] at hq
  · by_cases ht : r.type = ""
    · simp [newRequest, ht] at hq
    · cases ha : parseURIs parse r.add with
      | error e => simp [newRequest, ht, ha] at hq
      | ok adds => exact parseURIs_not_ok parse r.add h adds ha
  · by_cases ht : r.type = ""
    · simp [newRequest, ht] at hq
    · cases ha : parseURIs parse r.add with
      | error e => simp [newRequest, ht, ha] at hq
      | ok adds =>
        cases hr : parseURIs parse r.remove with
        | error e => simp [newRequest, ht, ha, hr] at hq
        | ok dels => exact parseURIs_not_ok parse r.remove h dels hr

theorem validateEntries_error_of {U : Type} (parse : String → Option U)
    (rs : List AcceptListRequest) (h : ∃ r ∈ rs, invalidEntry parse r) :
    validateEntries parse rs = Except.error "invalid accept list request" := by
  induction rs with
  | nil => simp at h
  | cons a rest ih =>
    rcases h with ⟨r, hr, hinv⟩
    cases ha : newRequest parse a with
    | error e => simp [validateEntries, ha]
    | ok q =>
      rcases List.mem_cons.1 hr with h1 | h2
      · subst h1
        exact absurd ha (newRequest_not_ok parse r hinv q)
      · have := ih ⟨r, h2, hinv⟩
        simp [validateEntries, ha, this]

theorem runUpdates_fail_spec {U : Type} (outcome : Nat → Option String)
    (e : String) :
    ∀ (rs : List (Request U)) (k i : Nat), i < rs.length →
      (∀ j, j < i → outcome (k + j) = none) → outcome (k + i) = some e →
      runUpdates outcome k rs = (rs.take (i + 1), rs.take i, some e) := by
  intro rs
  induction rs with
  | nil => intro k i hi; simp at hi
  | cons r rest ih =>
    intro k i hi hok hfail
    cases i with
    | zero =>
      have h0 : outcome k = some e := by simpa using hfail
      simp [runUpdates, h0]
    | succ i =>
      have h0 : outcome k = none := by simpa using hok 0 (Nat.succ_pos i)
      have hrest : runUpdates outcome (k + 1) rest =
          (rest.take (i + 1), rest.take i, some e) := by
        apply ih (k + 1) i
          (by simpa using Nat.lt_of_succ_lt_succ hi)
          (fun j hj => by
            have := hok (j + 1) (Nat.succ_lt_succ hj)
            simpa [Nat.add_assoc, Nat.add_comm 1 j] using this)
          (by simpa [Nat.add_assoc, Nat.add_comm 1 i] using hfail)
      simp [runUpdates, h0, hrest]

/-! ### Claims -/

/-- C1: when the requested page number exceeds the maximum valid page index,
the handler returns status 200 with a page document whose `id` encodes the
requested (out-of-range) page number verbatim, whose `next` link points at
the maximum valid page index, and which contains no `orderedItems` field. -/
theorem outbox_page_too_large (iri s : String) (refs : List String) (S n : Nat)
    (hs : parsePageNum s = some n) (hn : maxPageNum refs.length S < n) :
    handleActivities iri refs S "true" s =
      (200, Doc.page (buildPageDoc iri refs S (some n))) ∧
    (buildPageDoc iri refs S (some n)).id =
      iri ++ "?page=true&page-num=" ++ toString n ∧
    (buildPageDoc iri refs S (some n)).next =
      some (pageIRI iri (some (maxPageNum refs.length S))) ∧
    (buildPageDoc iri refs S (some n)).orderedItems = none := by
  have hw : windowItems refs S n = [] := by
    simp [windowItems, pageWindow, hn]
  have h1 : 1 ≤ n := Nat.lt_of_le_of_lt (Nat.zero_le _) hn
  have h2 : min (n - 1) (maxPageNum refs.length S) = maxPageNum refs.length S :=
    Nat.min_eq_right (by omega)
  refine ⟨?_, rfl, ?_, ?_⟩
  · simp [handleActivities, pageRequested, hs]
  · simp [buildPageDoc, buildPageDocWith, h1, h2]
  · simp [buildPageDoc, buildPageDocWith, hw]

/-- Witness for C1: the test scenario `total = 19`, `pageSize = 4`,
`page-num=30` — `id` echoes 30, `next` points at page 4, no items. -/
theorem outbox_page_too_large_witness :
    handleActivities outboxIRI outboxRefs19 4 "true" "30" =
      (200, Doc.page (buildPageDoc outboxIRI outboxRefs19 4 (some 30))) ∧
    (buildPageDoc outboxIRI outboxRefs19 4 (some 30)).id =
      outboxIRI ++ "?page=true&page-num=" ++ toString 30 ∧
    (buildPageDoc outboxIRI outboxRefs19 4 (some 30)).next =
      some (pageIRI outboxIRI (some (maxPageNum outboxRefs19.length 4))) ∧
    (buildPageDoc outboxIRI outboxRefs19 4 (some 30)).orderedItems = none :=
  outbox_page_too_large outboxIRI "30" outboxRefs19 4 30 (by decide) (by decide)

/-- Counterexample for C2: for `T = 19`, `S = 4`, `N = 3`, page 3 does not
contain the items with logical indices `[T - (N+1)*S, T - N*S) = [3, 7)`
claimed by the spec's formula — it contains indices `[11, 15)`
(`activity_14 .. activity_11`), as the test fixture `outboxPage3JSON`
asserts. -/
theorem page_formula_counterexample :
    ¬ (windowItems outboxRefs19 4 3 =
        ((outboxRefs19.drop (19 - (3 + 1) * 4)).take
          ((19 - 3 * 4) - (19 - (3 + 1) * 4))).reverse) := by
  decide

/-- C2 (amended): page `N`, for `N ≤ M` with `M = ceil(T/S) - 1` the maximum
page index, contains exactly the items with logical indices
`[T - (M+1-N)*S, T - (M-N)*S)` clipped to `[0, T)`, listed newest-first; in
particular for `T = 19`, `S = 4`, page 3 contains `activity_14 ..
activity_11` with `prev = page-num=4`, `next = page-num=2`, and page 0
contains `activity_2, activity_1, activity_0` with `prev = page-num=1` and
no `next`. -/
theorem page_window_amended (refs : List String) (S n : Nat)
    (hn : n ≤ maxPageNum refs.length S) :
    (windowItems refs S n).reverse =
      (refs.drop (refs.length - (maxPageNum refs.length S + 1 - n) * S)).take
        ((refs.length - (maxPageNum refs.length S - n) * S) -
          (refs.length - (maxPageNum refs.length S + 1 - n) * S)) ∧
    buildPageDoc outboxIRI outboxRefs19 4 (some 3) =
      { id := outboxIRI ++ "?page=true&page-num=3"
        prev := some (outboxIRI ++ "?page=true&page-num=4")
        next := some (outboxIRI ++ "?page=true&page-num=2")
        orderedItems :=
          some ["activity_14", "activity_13", "activity_12", "activity_11"]
        totalItems := 19 } ∧
    buildPageDoc outboxIRI outboxRefs19 4 (some 0) =
      { id := outboxIRI ++ "?page=true&page-num=0"
        prev := some (outboxIRI ++ "?page=true&page-num=1")
        next := none
        orderedItems := some ["activity_2", "activity_1", "activity_0"]
        totalItems := 19 } := by
  refine ⟨?_, by decide, by decide⟩
  simp [windowItems, pageWindow, Nat.not_lt.mpr hn]

/-- Witness for C2's amended theorem at `T = 19`, `S = 4`, `N = 3`. -/
theorem page_window_amended_witness :
    3 ≤ maxPageNum outboxRefs19.length 4 ∧
    (windowItems outboxRefs19 4 3).reverse =
      (outboxRefs19.drop
        (outboxRefs19.length - (maxPageNum outboxRefs19.length 4 + 1 - 3) * 4)).take
        ((outboxRefs19.length - (maxPageNum outboxRefs19.length 4 - 3) * 4) -
          (outboxRefs19.length - (maxPageNum outboxRefs19.length 4 + 1 - 3) * 4)) :=
  ⟨by decide, (page_window_amended outboxRefs19 4 3 (by decide)).1⟩

/-- C3: a paged request with no page number resolves to the most-recent page
`ceil(T/S) - 1`, returning exactly the same document as an explicit request
for the maximum page number; it has no `prev` link (and the page document
carries no `first` field at all), and its `next` link points one page older
when one exists. -/
theorem default_page_is_max_page (iri : String) (refs : List String) (S : Nat)
    (hS : 0 < S) (hT : 0 < refs.length) :
    buildPageDoc iri refs S none =
      buildPageDoc iri refs S (some (maxPageNum refs.length S)) ∧
    maxPageNum refs.length S = (refs.length + S - 1) / S - 1 ∧
    (buildPageDoc iri refs S none).prev = none ∧
    (buildPageDoc iri refs S none).next =
      (if 1 ≤ maxPageNum refs.length S then
        some (pageIRI iri (some (maxPageNum refs.length S - 1)))
      else none) := by
  have hp : ¬ (maxPageNum refs.length S + 1 ≤ maxPageNum refs.length S) := by
    omega
  have hmin :
      min (maxPageNum refs.length S - 1) (maxPageNum refs.length S) =
        maxPageNum refs.length S - 1 :=
    Nat.min_eq_left (Nat.sub_le _ _)
  exact ⟨rfl, rfl, by simp [buildPageDoc, buildPageDocWith, hp],
    by simp [buildPageDoc, buildPageDocWith, hmin]⟩

/-- Witness for C3: with `T = 19`, `S = 4` the default page is page 4,
containing `activity_18 .. activity_15` with `next = page-num=3` and no
`prev`. -/
theorem default_page_is_max_page_witness :
    buildPageDoc outboxIRI outboxRefs19 4 none =
      buildPageDoc outboxIRI outboxRefs19 4 (some (maxPageNum outboxRefs19.length 4)) ∧
    (buildPageDoc outboxIRI outboxRefs19 4 none).orderedItems =
      some ["activity_18", "activity_17", "activity_16", "activity_15"] ∧
    (buildPageDoc outboxIRI outboxRefs19 4 none).next =
      some (outboxIRI ++ "?page=true&page-num=3") ∧
    (buildPageDoc outboxIRI outboxRefs19 4 none).prev = none :=
  ⟨(default_page_is_max_page outboxIRI outboxRefs19 4 (by decide) (by decide)).1,
   by decide, by decide,
   (default_page_is_max_page outboxIRI outboxRefs19 4 (by decide) (by decide)).2.2.1⟩

/-- C5: malformed pagination query parameters are not errors — a `page-num`
that is not an integer is treated as absent and yields the most-recent page
with status 200, and a `page` value not recognized as true yields the
unpaged top-level collection document with status 200. -/
theorem malformed_paging_params_not_errors (iri p s t : String)
    (refs : List String) (S : Nat)
    (hnum : parsePageNum s = none) (hpage : pageRequested p = false) :
    handleActivities iri refs S "true" s =
      (200, Doc.page (buildPageDoc iri refs S none)) ∧
    handleActivities iri refs S p t =
      (200, Doc.collection (buildCollectionDoc iri refs.length)) := by
  constructor
  · simp [handleActivities, pageRequested, hnum]
  · simp [handleActivities, hpage]

/-- Witness for C5: `page-num=invalid` yields the most-recent page and
`page=invalid` yields the unpaged collection, both with status 200. -/
theorem malformed_paging_params_not_errors_witness :
    handleActivities outboxIRI outboxRefs19 4 "true" "invalid" =
      (200, Doc.page (buildPageDoc outboxIRI outboxRefs19 4 none)) ∧
    handleActivities outboxIRI outboxRefs19 4 "invalid" "3" =
      (200, Doc.collection (buildCollectionDoc outboxIRI outboxRefs19.length)) :=
  malformed_paging_params_not_errors outboxIRI "invalid" "invalid" "3"
    outboxRefs19 4 (by decide) (by decide)

/-- C6: for shares/likes, resolving the object IRI with an absent (empty)
`id` path parameter fails with exactly the message
`"id not specified in URL"` and returns no IRI; outbox/inbox derive the IRI
from static configuration and cannot fail. -/
theorem object_iri_resolution (base svc : String) :
    getObjectIRIByID base "" = Except.error "id not specified in URL" ∧
    getObjectIRIStatic svc = Except.ok svc :=
  ⟨rfl, rfl⟩

/-- C7: for every handler — paged activity, unpaged activity, accept-list
read (all lists and by type) and accept-list write — a store query/update
error or a document-marshaling error results in HTTP 500 with the generic
internal-server-error body as the only bytes written (each handler writes a
single response; there is no retry). -/
theorem store_or_marshal_error_500 {U : Type} (parse : String → Option U)
    (iri estore em1 em2 em3 em4 e t : String) (S : Nat)
    (pn : Option Nat) (refs : List String)
    (marshalP : OrderedCollectionPage String → Except String String)
    (marshalC : OrderedCollection → Except String String)
    (lists : List AcceptList)
    (marshalL : List AcceptList → Except String String)
    (uris : List String)
    (marshalT : AcceptList → Except String String)
    (rs : List AcceptListRequest) (reqs : List (Request U))
    (outcome : Nat → Option String)
    (hP : marshalP (buildPageDoc iri refs S pn) = Except.error em1)
    (hC : marshalC (buildCollectionDoc iri refs.length) = Except.error em2)
    (hL : marshalL lists = Except.error em3)
    (hT : marshalT (toAcceptList t uris) = Except.error em4)
    (hv : unmarshalAndValidateRequest parse (some rs) = Except.ok reqs)
    (hU : (runUpdates outcome 0 reqs).2.2 = some e) :
    handleActivitiesPageRun iri (Except.error estore) marshalP S pn =
      (500, internalServerErrorResponse) ∧
    handleActivitiesPageRun iri (Except.ok refs) marshalP S pn =
      (500, internalServerErrorResponse) ∧
    handleActivitiesUnpagedRun iri (Except.error estore) marshalC =
      (500, internalServerErrorResponse) ∧
    handleActivitiesUnpagedRun iri (Except.ok refs) marshalC =
      (500, internalServerErrorResponse) ∧
    handleGetAll (Except.error estore) marshalL =
      (500, internalServerErrorResponse) ∧
    handleGetAll (Except.ok lists) marshalL =
      (500, internalServerErrorResponse) ∧
    handleGetByType (Except.error estore) marshalT t =
      (500, internalServerErrorResponse) ∧
    handleGetByType (Except.ok uris) marshalT t =
      (500, internalServerErrorResponse) ∧
    (handlePost parse (Except.ok (some rs)) outcome).status = 500 ∧
    (handlePost parse (Except.ok (some rs)) outcome).body =
      internalServerErrorResponse := by
  refine ⟨rfl, ?_, rfl, ?_, rfl, ?_, rfl, ?_, ?_, ?_⟩ <;>
    simp [handleActivitiesPageRun, handleActivitiesUnpagedRun, handleGetAll,
      handleGetByType, handlePost, hP, hC, hL, hT, hv, hU]

/-- Witness for C7: injected store, update and marshal errors all produce
status 500 with `internalServerErrorResponse` as the body, in every
handler. -/
theorem store_or_marshal_error_500_witness :
    handleActivitiesPageRun outboxIRI (Except.error "injected store error")
      (fun _ => Except.error "injected marshal error") 4 (some 0) =
      (500, internalServerErrorResponse) ∧
    handleActivitiesPageRun outboxIRI (Except.ok outboxRefs19)
      (fun _ => Except.error "injected marshal error") 4 (some 0) =
      (500, internalServerErrorResponse) ∧
    handleActivitiesUnpagedRun outboxIRI (Except.error "injected store error")
      (fun _ => Except.error "injected marshal error") =
      (500, internalServerErrorResponse) ∧
    handleActivitiesUnpagedRun outboxIRI (Except.ok outboxRefs19)
      (fun _ => Except.error "injected marshal error") =
      (500, internalServerErrorResponse) ∧
    handleGetAll (Except.error "injected store error")
      (fun _ => Except.error "injected marshal error") =
      (500, internalServerErrorResponse) ∧
    handleGetAll (Except.ok [])
      (fun _ => Except.error "injected marshal error") =
      (500, internalServerErrorResponse) ∧
    handleGetByType (Except.error "injected store error")
      (fun _ => Except.error "injected marshal error") "follow" =
      (500, internalServerErrorResponse) ∧
    handleGetByType (Except.ok [])
      (fun _ => Except.error "injected marshal error") "follow" =
      (500, internalServerErrorResponse) ∧
    (handlePost parseW
      (Except.ok (some [{ type := "a", add := [], remove := [] }]))
      (fun _ => some "injected store error")).status = 500 ∧
    (handlePost parseW
      (Except.ok (some [{ type := "a", add := [], remove := [] }]))
      (fun _ => some "injected store error")).body =
      internalServerErrorResponse :=
  store_or_marshal_error_500 parseW outboxIRI "injected store error"
    "injected marshal error" "injected marshal error" "injected marshal error"
    "injected marshal error" "injected store error" "follow" 4 (some 0)
    outboxRefs19 (fun _ => Except.error "injected marshal error")
    (fun _ => Except.error "injected marshal error") []
    (fun _ => Except.error "injected marshal error") []
    (fun _ => Except.error "injected marshal error")
    [{ type := "a", add := [], remove := [] }]
    [{ acceptType := "a", additions := [], deletions := [] }]
    (fun _ => some "injected store error") rfl rfl rfl rfl rfl rfl

/-- C8: on an outbox/inbox page every `orderedItems` entry is the fully
hydrated activity fetched by its member IRI, while on a shares/likes page
every entry is a reference object whose `object` field is exactly the
member-IRI string, with no hydration. -/
theorem items_hydration_per_kind {A : Type} (hydrate : String → A)
    (iri : String) (refs : List String) (S n : Nat)
    (h : windowItems refs S n ≠ []) :
    (buildOutboxPage hydrate iri refs S (some n)).orderedItems =
      some ((windowItems refs S n).map hydrate) ∧
    (buildSharesPage iri refs S (some n)).orderedItems =
      some ((windowItems refs S n).map renderReference) ∧
    ∀ m ∈ windowItems refs S n, (renderReference m).object = m := by
  refine ⟨?_, ?_, fun m _ => rfl⟩ <;>
    simp [buildOutboxPage, buildSharesPage, buildPageDocWith, h]

/-- Witness for C8 on the test scenario's newest page. -/
theorem items_hydration_per_kind_witness :
    (buildOutboxPage (fun m => "hydrated:" ++ m) outboxIRI outboxRefs19 4
        (some 4)).orderedItems =
      some ((windowItems outboxRefs19 4 4).map (fun m => "hydrated:" ++ m)) ∧
    (buildSharesPage outboxIRI outboxRefs19 4 (some 4)).orderedItems =
      some ((windowItems outboxRefs19 4 4).map renderReference) ∧
    ∀ m ∈ windowItems outboxRefs19 4 4, (renderReference m).object = m :=
  items_hydration_per_kind (fun m => "hydrated:" ++ m) outboxIRI outboxRefs19
    4 4 (by decide)

/-- C4: an accept-list write whose body has an entry with an empty type or
an unparsable URI is rejected as a whole: HTTP 400 with a human-readable
message and no `Update` call on the store for any entry. -/
theorem acceptlist_invalid_batch_rejected {U : Type} (parse : String → Option U)
    (rs : List AcceptListRequest) (outcome : Nat → Option String)
    (h : ∃ r ∈ rs, invalidEntry parse r) :
    handlePost parse (Except.ok (some rs)) outcome =
      { status := 400, body := "invalid accept list request",
        calls := [], applied := [] } := by
  have hv := validateEntries_error_of parse rs h
  simp [handlePost, unmarshalAndValidateRequest, hv]

/-- Witness for C4: a batch whose single entry has an unparsable URI in
`add` gets 400 and no Update calls. -/
theorem acceptlist_invalid_batch_rejected_witness :
    handlePost parseW
      (Except.ok (some [{ type := "follow", add := ["bad uri"], remove := [] }]))
      (fun _ => none) =
      { status := 400, body := "invalid accept list request",
        calls := [], applied := [] } :=
  acceptlist_invalid_batch_rejected parseW
    [{ type := "follow", add := ["bad uri"], remove := [] }] (fun _ => none)
    ⟨{ type := "follow", add := ["bad uri"], remove := [] },
      List.mem_singleton.mpr rfl,
      Or.inr (Or.inl ⟨"bad uri", List.mem_singleton.mpr rfl, rfl⟩)⟩

/-- C9: a valid batch is applied by one `Update` call per entry in array
order; when the call for entry `i` fails, the response is HTTP 500, no
further calls are made, and the updates for entries `0 .. i-1` remain
applied. -/
theorem acceptlist_update_fail_stops {U : Type} (parse : String → Option U)
    (rs : List AcceptListRequest) (reqs : List (Request U))
    (outcome : Nat → Option String) (i : Nat) (e : String)
    (hv : unmarshalAndValidateRequest parse (some rs) = Except.ok reqs)
    (hi : i < reqs.length)
    (hok : ∀ j, j < i → outcome j = none) (hfail : outcome i = some e) :
    handlePost parse (Except.ok (some rs)) outcome =
      { status := 500, body := internalServerErrorResponse,
        calls := reqs.take (i + 1), applied := reqs.take i } := by
  have hr : runUpdates outcome 0 reqs = (reqs.take (i + 1), reqs.take i, some e) :=
    runUpdates_fail_spec outcome e reqs 0 i hi
      (fun j hj => by simpa using hok j hj) (by simpa using hfail)
  simp [handlePost, hv, hr]

/-- Witness for C9: two valid entries; the second Update call fails, so both
calls were made in order, only the first entry is applied, and the status
is 500. -/
theorem acceptlist_update_fail_stops_witness :
    handlePost parseW
      (Except.ok (some [{ type := "a", add := [], remove := [] },
                        { type := "b", add := [], remove := [] }]))
      (fun j => if j = 1 then some "injected store error" else none) =
      { status := 500, body := internalServerErrorResponse,
        calls := [{ acceptType := "a", additions := [], deletions := [] },
                  { acceptType := "b", additions := [], deletions := [] }],
        applied := [{ acceptType := "a", additions := [], deletions := [] }] } :=
  acceptlist_update_fail_stops parseW
    [{ type := "a", add := [], remove := [] },
     { type := "b", add := [], remove := [] }]
    [{ acceptType := "a", additions := [], deletions := [] },
     { acceptType := "b", additions := [], deletions := [] }]
    (fun j => if j = 1 then some "injected store error" else none) 1
    "injected store error" rfl (by decide)
    (fun j hj => by
      have hj0 : j = 0 := Nat.lt_one_iff.mp hj
      simp [hj0])
    rfl

/-- C10: when reading the request body itself fails, the accept-list writer
responds 500 with the generic internal-server-error body — not the 400 used
for malformed bodies — and performs no validation and no Update call. -/
theorem acceptlist_body_read_error {U : Type} (parse : String → Option U)
    (outcome : Nat → Option String) (e : String) :
    handlePost parse (Except.error e) outcome =
      { status := 500, body := internalServerErrorResponse,
        calls := [], applied := [] } ∧
    (handlePost parse (Except.error e) outcome).status ≠ 400 := by
  exact ⟨rfl, by simp [handlePost]⟩

end Orb
